import Mathlib

/-!
Verification of the adaptive statistics core of the gta-horse-betting-assistant
repository.  The numeric source code (TypeScript, `Number` arithmetic) is shallowly
embedded over `ℚ`; JavaScript `Math.sqrt` is modelled by `Rat.sqrt` (exact on the
perfect-square inputs that arise in every concrete instance below, and no theorem
depends on its value elsewhere); `Math.round` is half-up rounding, which is `round`
on `ℚ`; `Date.now()` is passed in as an explicit `now` parameter.  Out-of-range JS
array reads (which would give `undefined`) are modelled with `List.getD _ _ 0`;
they are never exercised by the claims, whose inputs are well-formed.
-/

/-- The four odds buckets, source keys `'1-2'`, `'3-5'`, `'6-10'`, `'11-30'`
(`frontend/src/lib/statsCalculator.ts`). -/
inductive Bucket where
  | b1to2
  | b3to5
  | b6to10
  | b11to30
deriving DecidableEq, Repr

/-- `classifyOddsToBucket` from `frontend/src/lib/statsCalculator.ts`:
`odds >= 1.0 && odds <= 2.0 → '1-2'`, `odds > 2.0 && odds <= 5.0 → '3-5'`,
`odds > 5.0 && odds <= 10.0 → '6-10'`, otherwise `'11-30'`. -/
def classifyOddsToBucket (odds : ℚ) : Bucket :=
  if 1 ≤ odds ∧ odds ≤ 2 then .b1to2
  else if 2 < odds ∧ odds ≤ 5 then .b3to5
  else if 5 < odds ∧ odds ≤ 10 then .b6to10
  else .b11to30

/-- Immutable race record (`frontend/src/types/storage.ts`, `RaceRecord`).
Only the fields the statistics core reads are embedded; presentation-only fields
(`signalBreakdown`, `modelWeightsSnapshot`) are omitted.  The field
`adjustedProbabilities` carries the model-adjusted probability vector (the type
declares it as `predictedProbabilities`; the storage layer reads it under the
name `adjustedProbabilities`). -/
structure RaceRecord where
  timestamp : ℚ
  odds : List ℚ
  impliedProbabilities : List ℚ
  strategyMode : String
  adjustedProbabilities : List ℚ
  recommendedContender : ℕ
  recommendedBetSize : ℚ
  actualFirst : ℕ
  actualSecond : ℕ
  actualThird : ℕ
  profitLoss : ℚ
deriving DecidableEq, Repr

/-- Cumulative betting history (`frontend/src/types/storage.ts`, `BettingHistory`). -/
structure BettingHistory where
  cumulativeROI : ℚ
  totalRaces : ℚ
  totalWins : ℚ
  totalProfit : ℚ
  totalInvested : ℚ
  winRate : ℚ
  lastUpdated : ℚ
deriving DecidableEq, Repr

/-- `calculateBettingHistory` from `frontend/src/lib/statsCalculator.ts`.
`now` models `Date.now()`. -/
def calculateBettingHistory (races : List RaceRecord) (now : ℚ) : BettingHistory :=
  if races.length = 0 then
    { cumulativeROI := 0, totalRaces := 0, totalWins := 0, totalProfit := 0
      totalInvested := 0, winRate := 0, lastUpdated := now }
  else
    let totalProfit := (races.map (·.profitLoss)).sum
    let totalInvested := (races.map (·.recommendedBetSize)).sum
    let totalWins : ℚ :=
      ((races.filter (fun r => decide (r.actualFirst = r.recommendedContender))).length : ℚ)
    let cumulativeROI := if totalInvested > 0 then totalProfit / totalInvested * 100 else 0
    let winRate := if (races.length : ℚ) > 0 then totalWins / (races.length : ℚ) * 100 else 0
    { cumulativeROI := cumulativeROI, totalRaces := (races.length : ℚ), totalWins := totalWins
      totalProfit := totalProfit, totalInvested := totalInvested, winRate := winRate
      lastUpdated := now }

/-- Per-bucket aggregate statistics, nine fields
(`frontend/src/types/storage.ts` `OddsBucket` plus `averageImpliedProbability`,
as produced by `calculateOddsBucketStats` in `statsCalculator.ts`; the
`part_012` variant omits `averageImpliedProbability` and is otherwise identical). -/
structure OddsBucket where
  totalRaces : ℚ
  wins : ℚ
  top3Finishes : ℚ
  totalImpliedProbability : ℚ
  averageImpliedProbability : ℚ
  actualWinRate : ℚ
  roiIfFlatBet : ℚ
  varianceScore : ℚ
  recentWindowPerformance : ℚ
deriving DecidableEq, Repr

/-- The four-bucket statistics table (`OddsBucketStats`), keys
`'1-2'`, `'3-5'`, `'6-10'`, `'11-30'`. -/
structure OddsBucketStats where
  b12 : OddsBucket
  b35 : OddsBucket
  b610 : OddsBucket
  b1130 : OddsBucket
deriving DecidableEq, Repr

/-- Key lookup `bucketStats[bucketKey]`. -/
def OddsBucketStats.get (s : OddsBucketStats) : Bucket → OddsBucket
  | .b1to2 => s.b12
  | .b3to5 => s.b35
  | .b6to10 => s.b610
  | .b11to30 => s.b1130

/-- `calculateVariance` from `statsCalculator.ts`: population standard deviation of
the 0/1 outcome sequence (`Math.sqrt` modelled by `Rat.sqrt`, exact at the
perfect squares arising in all concrete instances below). -/
def calculateVariance (outcomes : List ℚ) : ℚ :=
  if outcomes = [] then 0
  else
    let n : ℚ := (outcomes.length : ℚ)
    let mean := outcomes.sum / n
    let variance := (outcomes.map (fun val => (val - mean) * (val - mean))).sum / n
    Rat.sqrt variance

/-- `calculateRecentPerformance` from `statsCalculator.ts`: win rate (percent)
over the capped recent outcome window. -/
def calculateRecentPerformance (recentOutcomes : List ℚ) : ℚ :=
  if recentOutcomes = [] then 0
  else ((recentOutcomes.filter (fun o => decide (o = 1))).length : ℚ)
        / (recentOutcomes.length : ℚ) * 100

/-- Mutable per-bucket accumulator used inside `calculateOddsBucketStats`. -/
structure BucketAcc where
  totalRaces : ℚ
  wins : ℚ
  top3Finishes : ℚ
  totalImpliedProbability : ℚ
  totalPayout : ℚ
  totalBet : ℚ
  outcomes : List ℚ
  recentOutcomes : List ℚ
deriving Repr

def emptyBucketAcc : BucketAcc :=
  { totalRaces := 0, wins := 0, top3Finishes := 0, totalImpliedProbability := 0
    totalPayout := 0, totalBet := 0, outcomes := [], recentOutcomes := [] }

/-- The four accumulators together. -/
structure BucketAccs where
  b12 : BucketAcc
  b35 : BucketAcc
  b610 : BucketAcc
  b1130 : BucketAcc
deriving Repr

def initialBucketAccs : BucketAccs :=
  { b12 := emptyBucketAcc, b35 := emptyBucketAcc
    b610 := emptyBucketAcc, b1130 := emptyBucketAcc }

def BucketAccs.get (a : BucketAccs) : Bucket → BucketAcc
  | .b1to2 => a.b12
  | .b3to5 => a.b35
  | .b6to10 => a.b610
  | .b11to30 => a.b1130

def BucketAccs.set (a : BucketAccs) : Bucket → BucketAcc → BucketAccs
  | .b1to2, b => { a with b12 := b }
  | .b3to5, b => { a with b35 := b }
  | .b6to10, b => { a with b610 := b }
  | .b11to30, b => { a with b1130 := b }

/-- One iteration of the inner loop of `calculateOddsBucketStats`
(one contender slot of one race): bump the owning bucket's counters, record the
0/1 outcome, accumulate flat-bet payout, and cap the recent window to the last
20 samples (`shift`, i.e. drop at the front). -/
def processHorse (race : RaceRecord) (accs : BucketAccs) (iAndOdds : ℕ × ℚ) : BucketAccs :=
  let i := iAndOdds.1
  let odds := iAndOdds.2
  let bucketKey := classifyOddsToBucket odds
  let b := accs.get bucketKey
  let won := race.actualFirst = i
  let inTop3 := race.actualFirst = i ∨ race.actualSecond = i ∨ race.actualThird = i
  let b :=
    { b with
      totalRaces := b.totalRaces + 1
      totalImpliedProbability := b.totalImpliedProbability + race.impliedProbabilities.getD i 0
      wins := if won then b.wins + 1 else b.wins
      outcomes := b.outcomes ++ [if won then 1 else 0]
      recentOutcomes := b.recentOutcomes ++ [if won then 1 else 0]
      top3Finishes := if inTop3 then b.top3Finishes + 1 else b.top3Finishes
      totalBet := b.totalBet + 1
      totalPayout := if won then b.totalPayout + odds * 1 else b.totalPayout }
  let b :=
    if b.recentOutcomes.length > 20 then { b with recentOutcomes := b.recentOutcomes.tail }
    else b
  accs.set bucketKey b

/-- The outer loop body of `calculateOddsBucketStats`: fold one race's six
contender slots through `processHorse`. -/
def processRace (accs : BucketAccs) (race : RaceRecord) : BucketAccs :=
  race.odds.enum.foldl (processHorse race) accs

/-- Final per-bucket statistics from an accumulator
(the tail of `calculateOddsBucketStats`). -/
def finalizeBucket (b : BucketAcc) : OddsBucket :=
  { totalRaces := b.totalRaces
    wins := b.wins
    top3Finishes := b.top3Finishes
    totalImpliedProbability := b.totalImpliedProbability
    averageImpliedProbability :=
      if b.totalRaces > 0 then b.totalImpliedProbability / b.totalRaces else 0
    actualWinRate := if b.totalRaces > 0 then b.wins / b.totalRaces * 100 else 0
    roiIfFlatBet :=
      if b.totalBet > 0 then (b.totalPayout - b.totalBet) / b.totalBet * 100 else 0
    varianceScore := calculateVariance b.outcomes
    recentWindowPerformance := calculateRecentPerformance b.recentOutcomes }

/-- `calculateOddsBucketStats` from `frontend/src/lib/statsCalculator.ts`
(identical aggregation in the `part_012` variant). -/
def calculateOddsBucketStats (races : List RaceRecord) : OddsBucketStats :=
  let accs := races.foldl processRace initialBucketAccs
  { b12 := finalizeBucket accs.b12
    b35 := finalizeBucket accs.b35
    b610 := finalizeBucket accs.b610
    b1130 := finalizeBucket accs.b1130 }

/-- Signal weights (`frontend/src/types/storage.ts`, `SignalWeights`). -/
structure SignalWeights where
  oddsWeight : ℚ
  historicalBucketWeight : ℚ
  recentBucketWeight : ℚ
  consistencyWeight : ℚ
deriving DecidableEq, Repr

/-- Drift-detection state (`frontend/src/types/storage.ts`, `DriftDetectionState`). -/
structure DriftDetectionState where
  baselineAccuracy : ℚ
  currentAccuracy : ℚ
  driftScore : ℚ
  lastDriftCheck : ℚ
deriving DecidableEq, Repr

/-- Model state with signal weights and learning parameters
(`frontend/src/types/storage.ts`, rich `ModelState` variant).  The
`recentAccuracyWindow` is a record count, embedded as `ℕ`; the unused legacy
fields `learningRate` and `weights` are omitted. -/
structure ModelState where
  lastUpdated : ℚ
  totalRacesProcessed : ℚ
  signalWeights : SignalWeights
  calibrationScalar : ℚ
  confidenceScalingFactor : ℚ
  recentAccuracyWindow : ℕ
  driftDetectionState : DriftDetectionState
  raceCount : ℚ
deriving DecidableEq, Repr

/-- Default model state (`readModelState` initialization in the storage layer,
`part_013`): weights 0.35/0.25/0.25/0.15, calibration 1.0, window 20.
`Date.now()` stamps modelled as 0. -/
def defaultModelState : ModelState :=
  { lastUpdated := 0
    totalRacesProcessed := 0
    signalWeights :=
      { oddsWeight := 0.35, historicalBucketWeight := 0.25
        recentBucketWeight := 0.25, consistencyWeight := 0.15 }
    calibrationScalar := 1
    confidenceScalingFactor := 1
    recentAccuracyWindow := 20
    driftDetectionState :=
      { baselineAccuracy := 0, currentAccuracy := 0, driftScore := 0, lastDriftCheck := 0 }
    raceCount := 0 }

/-- `calculateBucketWinDelta` from `statsCalculator.ts`:
`actualWinRate/100 - averageImpliedProbability`. -/
def calculateBucketWinDelta (bucket : OddsBucket) : ℚ :=
  bucket.actualWinRate / 100 - bucket.averageImpliedProbability

/-- `extractRecentSessionDelta` from `statsCalculator.ts`.  The field is a
number in this typed embedding, so only the `typeof recentPerf === 'number'`
branch (`recentPerf / 100`) is reachable. -/
def extractRecentSessionDelta (bucket : OddsBucket) : ℚ :=
  bucket.recentWindowPerformance / 100

/-- `deriveConsistencyModifier` from `statsCalculator.ts`: a modifier in
[-0.1, 0.1] derived from the variance score. -/
def deriveConsistencyModifier (bucket : OddsBucket) : ℚ :=
  let variance := bucket.varianceScore
  if variance < 0.5 then 0.1 * (1 - variance / 0.5)
  else -0.1 * min 1 ((variance - 0.5) / 0.5)

/-- Pre-normalization adjusted probability of one contender
(steps 1-4 of `calculateBucketAdjustedProbabilities`): implied probability
`1/odds` times `max(0.1, 1 + Σ weight·signal)`. -/
def adjustedPreNorm (bucketStats : OddsBucketStats) (signalWeights : SignalWeights)
    (oddsValue : ℚ) : ℚ :=
  let impliedProb := 1 / oddsValue
  let bucket := bucketStats.get (classifyOddsToBucket oddsValue)
  let adjustment := 1 +
    signalWeights.historicalBucketWeight * calculateBucketWinDelta bucket +
    signalWeights.recentBucketWeight * extractRecentSessionDelta bucket +
    signalWeights.consistencyWeight * deriveConsistencyModifier bucket
  impliedProb * max 0.1 adjustment

/-- `calculateBucketAdjustedProbabilities` from `statsCalculator.ts`: the
five-step prediction engine.  Steps 1-4 are `adjustedPreNorm` per contender;
step 5 normalizes by the total. -/
def calculateBucketAdjustedProbabilities (odds : List ℚ) (bucketStats : OddsBucketStats)
    (signalWeights : SignalWeights) : List ℚ :=
  let adjustedProbabilities := odds.map (adjustedPreNorm bucketStats signalWeights)
  let total := adjustedProbabilities.sum
  adjustedProbabilities.map (fun prob => prob / total)

/-- Discrete confidence level. -/
inductive ConfidenceLevel where
  | high
  | medium
  | low
deriving DecidableEq, Repr

/-- `calculateConfidence` from `statsCalculator.ts`: averages bucket sample size
and variance over the six contenders' buckets and compares the four factors
against fixed thresholds. -/
def calculateConfidence (odds : List ℚ) (bucketStats : OddsBucketStats)
    (modelState : ModelState) : ConfidenceLevel :=
  let bucketKeys := odds.map classifyOddsToBucket
  let totalSampleSize := (bucketKeys.map (fun k => (bucketStats.get k).totalRaces)).sum
  let totalVariance := (bucketKeys.map (fun k => (bucketStats.get k).varianceScore)).sum
  let count : ℚ := (bucketKeys.length : ℚ)
  let avgSampleSize := totalSampleSize / count
  let avgVariance := totalVariance / count
  let recentAccuracy := modelState.driftDetectionState.currentAccuracy
  let calibration := modelState.calibrationScalar
  if avgSampleSize ≥ 50 ∧ avgVariance < 0.4 ∧ recentAccuracy ≥ 55 ∧ calibration ≥ 0.95 then
    .high
  else if avgSampleSize ≥ 20 ∧ avgVariance < 0.6 ∧ recentAccuracy ≥ 45 ∧ calibration ≥ 0.85 then
    .medium
  else
    .low

/-- `calculateBetSize` from `statsCalculator.ts`: base $1000, edge multiplier
`min(2, 1 + 10·max(0,edge))`, confidence multiplier 1.5/1.0/0.5, rounded to the
nearest $1000 and clamped to [$1000, $10000].  (`modelState` is accepted and
ignored, as in the source.) -/
def calculateBetSize (valueEdge : ℚ) (confidenceLevel : ConfidenceLevel)
    (_modelState : ModelState) : ℚ :=
  let baseBet : ℚ := 1000
  let edgeMultiplier := min 2 (1 + max 0 valueEdge * 10)
  let confidenceMultiplier : ℚ :=
    match confidenceLevel with
    | .high => 1.5
    | .medium => 1
    | .low => 0.5
  let rawBetSize := baseBet * edgeMultiplier * confidenceMultiplier
  let roundedBetSize : ℚ := ((round (rawBetSize / 1000) : ℤ) : ℚ) * 1000
  max 1000 (min 10000 roundedBetSize)

/-- `calculateAccuracy` from `part_012` (`statsCalculator` variant): percentage of
races in the most recent `windowSize` records whose winner was the recommended
contender.  JS `races.slice(-windowSize)` is the whole array when
`windowSize = 0` (since `-0 === 0`) and the last `min(windowSize, length)`
records otherwise. -/
def calculateAccuracy (races : List RaceRecord) (windowSize : ℕ) : ℚ :=
  if races = [] then 0
  else
    let recentRaces := if windowSize = 0 then races
      else races.drop (races.length - windowSize)
    let correctPredictions :=
      (recentRaces.filter (fun r => decide (r.actualFirst = r.recommendedContender))).length
    (correctPredictions : ℚ) / (recentRaces.length : ℚ) * 100

/-- `calculateDriftScore` from `part_012`: relative deviation of current from
baseline accuracy. -/
def calculateDriftScore (baselineAccuracy currentAccuracy : ℚ) : ℚ :=
  if baselineAccuracy = 0 then 0
  else |baselineAccuracy - currentAccuracy| / baselineAccuracy

/-- Sum of the positive bucket ROIs (the `totalPositiveROI` reduce in
`computeUpdatedSignalWeights`, `part_012`). -/
def totalPositiveROI (stats : OddsBucketStats) : ℚ :=
  max 0 stats.b12.roiIfFlatBet + max 0 stats.b35.roiIfFlatBet +
  max 0 stats.b610.roiIfFlatBet + max 0 stats.b1130.roiIfFlatBet

/-- The raw (pre-normalization) historical-bucket weight of
`computeUpdatedSignalWeights` (`part_012`). -/
def rawHistoricalWeight (stats : OddsBucketStats) : ℚ :=
  if totalPositiveROI stats > 0 then 0.25 + 0.1 * (totalPositiveROI stats / 100)
  else 0.25

/-- Average recent-window performance over the four buckets
(`computeUpdatedSignalWeights`, `part_012`). -/
def avgRecentPerformance (stats : OddsBucketStats) : ℚ :=
  (stats.b12.recentWindowPerformance + stats.b35.recentWindowPerformance +
   stats.b610.recentWindowPerformance + stats.b1130.recentWindowPerformance) / 4

/-- The raw recent-bucket weight of `computeUpdatedSignalWeights` (`part_012`). -/
def rawRecentWeight (stats : OddsBucketStats) : ℚ :=
  if avgRecentPerformance stats > 0 then 0.25 + 0.1 * (avgRecentPerformance stats / 100)
  else 0.25

/-- Average variance score over the four buckets
(`computeUpdatedSignalWeights`, `part_012`). -/
def avgVariance (stats : OddsBucketStats) : ℚ :=
  (stats.b12.varianceScore + stats.b35.varianceScore +
   stats.b610.varianceScore + stats.b1130.varianceScore) / 4

/-- The raw consistency weight of `computeUpdatedSignalWeights` (`part_012`). -/
def rawConsistencyWeight (stats : OddsBucketStats) : ℚ :=
  if avgVariance stats < 0.5 then 0.2 else 0.15

/-- The normalization denominator of `computeUpdatedSignalWeights` (`part_012`):
`0.35 + historicalBucketWeight + recentBucketWeight + consistencyWeight`. -/
def totalRawWeight (stats : OddsBucketStats) : ℚ :=
  0.35 + rawHistoricalWeight stats + rawRecentWeight stats + rawConsistencyWeight stats

/-- `computeUpdatedSignalWeights` from `part_012`: recomputes the four signal
weights, calibration scalar, confidence scaling factor and drift state from the
full race list.  Returns `currentState` unchanged on an empty list.  `now`
models `Date.now()`. -/
def computeUpdatedSignalWeights (races : List RaceRecord) (currentState : ModelState)
    (now : ℚ) : ModelState :=
  if races.length = 0 then currentState
  else
    let bucketStats := calculateOddsBucketStats races
    let recentWindow := currentState.recentAccuracyWindow
    let currentAccuracy := calculateAccuracy races recentWindow
    let baselineAccuracy :=
      if currentState.driftDetectionState.baselineAccuracy = 0 ∧
          races.length ≥ recentWindow then currentAccuracy
      else currentState.driftDetectionState.baselineAccuracy
    let driftScore := calculateDriftScore baselineAccuracy currentAccuracy
    let totalWeight := totalRawWeight bucketStats
    let calibrationScalar :=
      if currentAccuracy > 0 then 1 + (currentAccuracy - 50) / 100 else 1
    let confidenceScalingFactor := min 1 ((races.length : ℚ) / 100)
    { currentState with
      lastUpdated := now
      totalRacesProcessed := (races.length : ℚ)
      signalWeights :=
        { oddsWeight := 0.35 / totalWeight
          historicalBucketWeight := rawHistoricalWeight bucketStats / totalWeight
          recentBucketWeight := rawRecentWeight bucketStats / totalWeight
          consistencyWeight := rawConsistencyWeight bucketStats / totalWeight }
      calibrationScalar := calibrationScalar
      confidenceScalingFactor := confidenceScalingFactor
      recentAccuracyWindow := currentState.recentAccuracyWindow
      driftDetectionState :=
        { baselineAccuracy := baselineAccuracy
          currentAccuracy := currentAccuracy
          driftScore := driftScore
          lastDriftCheck := now }
      raceCount := (races.length : ℚ) }

/-- `rebuildDerivedStats` from `frontend/src/lib/storage.ts`: recompute
`BettingHistory` and `OddsBucketStats` from the race ledger.  The storage I/O is
abstracted into ledger-in / derived-values-out; `now` models `Date.now()`. -/
def rebuildDerivedStats (races : List RaceRecord) (now : ℚ) :
    BettingHistory × OddsBucketStats :=
  (calculateBettingHistory races now, calculateOddsBucketStats races)

/-- Maximum of a list of rationals: `Math.max(...arr)` for a non-empty `arr`
(the empty case, `-Infinity` in JS, is represented by the unused default 0 and
noted at each use site). -/
def listMax : List ℚ → ℚ
  | [] => 0
  | [x] => x
  | x :: y :: ys => max x (listMax (y :: ys))

/-- First index of `a` in `l`, if present (`Array.prototype.indexOf` helper). -/
def indexOfAux (a : ℚ) : List ℚ → Option ℕ
  | [] => none
  | x :: xs => if x = a then some 0 else (indexOfAux a xs).map (· + 1)

/-- JS `arr.indexOf(a)`: first index of `a`, or `-1` when absent. -/
def jsIndexOf (l : List ℚ) (a : ℚ) : ℤ :=
  match indexOfAux a l with
  | some n => (n : ℤ)
  | none => -1

/-- `arr.indexOf(Math.max(...arr))`: index of the first occurrence of the list
maximum (`-1` on the empty list, as in JS where `Math.max()` is `-Infinity`). -/
def idxOfMax (l : List ℚ) : ℤ := jsIndexOf l (listMax l)

/-- The Balanced-mode blend scores of `getStrategyRecommendation`
(`statsCalculator.ts`): `0.7·probability + 0.3·max(0, valueEdge)` per contender. -/
def balancedScores (adjustedProbabilities valueEdge : List ℚ) : List ℚ :=
  adjustedProbabilities.enum.map
    (fun p => p.2 * 0.7 + max 0 (valueEdge.getD p.1 0) * 0.3)

/-- One `{odds, index, edge}` entry of the Aggressive-mode candidate list. -/
structure AggrItem where
  odds : ℚ
  index : ℕ
  edge : ℚ
deriving DecidableEq, Repr

/-- Strategy recommendation result (`statsCalculator.ts`,
`StrategyRecommendation`); `recommendedIndex` is `-1` on a skip. -/
structure StrategyRecommendation where
  shouldSkip : Bool
  recommendedIndex : ℤ
  reason : String
deriving DecidableEq, Repr

/-- `getStrategyRecommendation` from `statsCalculator.ts`: the four-mode
strategy selector with a Safe fallback for unknown mode strings. -/
def getStrategyRecommendation (strategyMode : String) (odds : List ℚ)
    (adjustedProbabilities : List ℚ) (valueEdge : List ℚ) : StrategyRecommendation :=
  let minEdgeThreshold : ℚ := 0.02
  if strategyMode = "Safe" then
    { shouldSkip := false
      recommendedIndex := idxOfMax adjustedProbabilities
      reason := "Highest adjusted probability" }
  else if strategyMode = "Balanced" then
    let scores := balancedScores adjustedProbabilities valueEdge
    let maxIndex := idxOfMax scores
    let hasPositiveEdge := valueEdge.any (fun edge => decide (edge > minEdgeThreshold))
    if !hasPositiveEdge then
      { shouldSkip := true, recommendedIndex := -1
        reason := "No meaningful positive edge detected" }
    else
      { shouldSkip := false, recommendedIndex := maxIndex
        reason := "Best blend of probability and value" }
  else if strategyMode = "Value" then
    let maxEdge := listMax valueEdge
    if maxEdge < minEdgeThreshold then
      { shouldSkip := true, recommendedIndex := -1
        reason := "No value edge above threshold" }
    else
      { shouldSkip := false, recommendedIndex := jsIndexOf valueEdge maxEdge
        reason := "Highest positive value edge" }
  else if strategyMode = "Aggressive" then
    let highOddsIndices :=
      (odds.enum.map (fun p => AggrItem.mk p.2 p.1 (valueEdge.getD p.1 0))).filter
        (fun item => decide (item.odds > 5) && decide (item.edge > minEdgeThreshold))
    match highOddsIndices with
    | [] =>
      { shouldSkip := true, recommendedIndex := -1
        reason := "No high-odds contenders with positive edge" }
    | x :: xs =>
      let best := xs.foldl (fun m item => if item.edge > m.edge then item else m) x
      { shouldSkip := false, recommendedIndex := (best.index : ℤ)
        reason := "High-odds contender with strong value edge" }
  else
    { shouldSkip := false
      recommendedIndex := idxOfMax adjustedProbabilities
      reason := "Highest adjusted probability (default)" }

namespace Store14

/-- `calculateImpliedProbability` from `part_014` (storage variant):
`1 / (odds + 1)`. -/
def calculateImpliedProbability (odds : ℚ) : ℚ := 1 / (odds + 1)

/-- `validateAndFixImpliedProbabilities` from `part_014`: replace the stored
implied probabilities when any entry deviates from `1/(odds+1)` by more than
`0.0001`. -/
def validateAndFixImpliedProbabilities (race : RaceRecord) : RaceRecord :=
  let correctedImpliedProbs := race.odds.map calculateImpliedProbability
  let needsCorrection :=
    race.impliedProbabilities.enum.any
      (fun p => decide (|p.2 - correctedImpliedProbs.getD p.1 0| > 0.0001))
  if needsCorrection then { race with impliedProbabilities := correctedImpliedProbs }
  else race

/-- Drift-detection state as stored by the `part_014` storage layer. -/
structure DriftState where
  driftDetected : Bool
  lastDriftCheck : ℚ
  consecutiveDriftCount : ℕ
deriving DecidableEq, Repr

/-- Model state as stored by the `part_014` storage layer
(`getDefaultModelState` shape). -/
structure ModelState where
  signalWeights : SignalWeights
  calibrationScalar : ℚ
  driftDetectionState : DriftState
  lastUpdated : ℚ
deriving DecidableEq, Repr

/-- `getDefaultModelState` from `part_014`: weights 0.4/0.3/0.2/0.1,
calibration 1.0. -/
def getDefaultModelState (now : ℚ) : ModelState :=
  { signalWeights :=
      { oddsWeight := 0.4, historicalBucketWeight := 0.3
        recentBucketWeight := 0.2, consistencyWeight := 0.1 }
    calibrationScalar := 1
    driftDetectionState :=
      { driftDetected := false, lastDriftCheck := now, consecutiveDriftCount := 0 }
    lastUpdated := now }

/-- The `localStorage` contents under the five `part_014` keys (`gta_races`,
`gta_betting_history`, `gta_odds_bucket_stats`, `gta_model_state`,
`gta_session_start`); `none` models an absent key. -/
structure StorageState where
  races : Option (List RaceRecord)
  bettingHistory : Option BettingHistory
  oddsBucketStats : Option OddsBucketStats
  modelState : Option ModelState
  sessionStart : Option ℚ
deriving DecidableEq, Repr

/-- `getRaces` from `part_014`: read the stored race list (empty when absent),
validating and fixing implied probabilities on read. -/
def getRaces (st : StorageState) : List RaceRecord :=
  (st.races.getD []).map validateAndFixImpliedProbabilities

/-- `getModelState` from `part_014`: the stored model state, or the default. -/
def getModelState (st : StorageState) (now : ℚ) : ModelState :=
  st.modelState.getD (getDefaultModelState now)

/-- Result record of the calibration update. -/
structure CalibrationUpdate where
  newCalibrationScalar : ℚ
  adjustmentApplied : Bool
deriving DecidableEq, Repr

/-- Modelled from the spec: `part_014` imports `calculateCalibrationUpdate` from
its `statsCalculator`, whose source file is not under `src/`.  Per spec §4.4,
the calibration scalar moves by `-error × 0.01` where
`error = predictedProb − impliedProb` for the actual winner, clamped to
[0.5, 1.5]; the adjustment is reported as applied. -/
def calculateCalibrationUpdate (adjustedProbabilities impliedProbabilities : List ℚ)
    (actualFirst : ℕ) (currentScalar : ℚ) : CalibrationUpdate :=
  let error := adjustedProbabilities.getD actualFirst 0 -
    impliedProbabilities.getD actualFirst 0
  { newCalibrationScalar := max 0.5 (min 1.5 (currentScalar - error * 0.01))
    adjustmentApplied := true }

/-- Result record of the drift check. -/
structure DriftCheckResult where
  driftDetected : Bool
deriving DecidableEq, Repr

/-- Modelled from the spec: `part_014` imports `detectDrift` from its
`statsCalculator`, whose source file is not under `src/`.  Per spec §4.4, drift
is flagged when the ROI (as a fraction) of all records before the most recent
`windowSize` exceeds the ROI of the most recent `windowSize` records by more
than 0.15, and is only evaluated once at least `2 × windowSize` records exist. -/
def detectDrift (races : List RaceRecord) (windowSize : ℕ) : DriftCheckResult :=
  if races.length < 2 * windowSize then { driftDetected := false }
  else
    let recent := races.drop (races.length - windowSize)
    let prior := races.take (races.length - windowSize)
    let roiOf := fun (rs : List RaceRecord) =>
      let invested := (rs.map (·.recommendedBetSize)).sum
      if invested > 0 then (rs.map (·.profitLoss)).sum / invested else 0
    { driftDetected := decide (roiOf prior - roiOf recent > 0.15) }

/-- `updateModelState` from `part_014`: merge the given updates into the current
(or default) model state and restamp `lastUpdated`. -/
def updateModelState (st : StorageState) (f : ModelState → ModelState) (now : ℚ) :
    StorageState :=
  let current := getModelState st now
  { st with modelState := some { f current with lastUpdated := now } }

/-- `rebuildDerivedStats` from `part_014`: re-validate the ledger, recompute and
store `BettingHistory` and `OddsBucketStats`, reapply the calibration update when
at least one race exists, and run the drift check every 20th race. -/
def rebuildDerivedStats (st : StorageState) (now : ℚ) : StorageState :=
  let races := getRaces st
  let correctedRaces := races.map validateAndFixImpliedProbabilities
  let needsSave := decide (races ≠ correctedRaces)
  let st1 := if needsSave then { st with races := some correctedRaces } else st
  let bettingHistory := calculateBettingHistory correctedRaces now
  let bucketStats := calculateOddsBucketStats correctedRaces
  let st2 := { st1 with bettingHistory := some bettingHistory
                        oddsBucketStats := some bucketStats }
  let st3 :=
    match correctedRaces.getLast? with
    | none => st2
    | some lastRace =>
      let modelState := getModelState st2 now
      let calibrationUpdate := calculateCalibrationUpdate
        lastRace.adjustedProbabilities lastRace.impliedProbabilities
        lastRace.actualFirst modelState.calibrationScalar
      if calibrationUpdate.adjustmentApplied then
        updateModelState st2
          (fun s => { s with calibrationScalar := calibrationUpdate.newCalibrationScalar })
          now
      else st2
  if correctedRaces.length > 0 ∧ correctedRaces.length % 20 = 0 then
    let driftResult := detectDrift correctedRaces 20
    let modelState := getModelState st3 now
    updateModelState st3
      (fun s =>
        { s with driftDetectionState :=
            { driftDetected := driftResult.driftDetected
              lastDriftCheck := now
              consecutiveDriftCount :=
                if driftResult.driftDetected then
                  modelState.driftDetectionState.consecutiveDriftCount + 1
                else 0 } })
      now
  else st3

/-- `undoLastRace` from `part_014`: failure (`false`) with no state change on an
empty ledger; otherwise drop the most recent race, rebuild derived state, and
report success. -/
def undoLastRace (st : StorageState) (now : ℚ) : Bool × StorageState :=
  let races := getRaces st
  if races = [] then (false, st)
  else
    let updatedRaces := races.dropLast
    let st1 := { st with races := some updatedRaces }
    (true, rebuildDerivedStats st1 now)

end Store14

/-- The all-zero bucket statistics row (what `calculateOddsBucketStats` produces
for a bucket with no observations). -/
def zeroOddsBucket : OddsBucket :=
  { totalRaces := 0, wins := 0, top3Finishes := 0, totalImpliedProbability := 0
    averageImpliedProbability := 0, actualWinRate := 0, roiIfFlatBet := 0
    varianceScore := 0, recentWindowPerformance := 0 }

/-- A concrete race used as counterexample input: one long shot at odds 30 that
wins (bucket `'11-30'` then shows flat-bet ROI 2900%), five favourites at odds 2
that lose. -/
def raceLongshotWin : RaceRecord :=
  { timestamp := 0
    odds := [30, 2, 2, 2, 2, 2]
    impliedProbabilities := [1/31, 1/3, 1/3, 1/3, 1/3, 1/3]
    strategyMode := "Safe"
    adjustedProbabilities := [1/6, 1/6, 1/6, 1/6, 1/6, 1/6]
    recommendedContender := 3
    recommendedBetSize := 1000
    actualFirst := 0
    actualSecond := 1
    actualThird := 2
    profitLoss := 29000 }

/-- A model state whose calibration scalar is already outside [0.5, 1.5]. -/
def badCalibrationState : ModelState :=
  { defaultModelState with calibrationScalar := 7 }

/-- Storage with every key absent (a fresh `localStorage`). -/
def emptyStorage : Store14.StorageState :=
  { races := none, bettingHistory := none, oddsBucketStats := none
    modelState := none, sessionStart := none }

/-! ### Helper lemmas about `listMax`, `indexOfAux` and sums -/

theorem listMax_mem (l : List ℚ) (h : l ≠ []) : listMax l ∈ l := by
  induction l with
  | nil => exact absurd rfl h
  | cons x xs ih =>
    cases xs with
    | nil => simp [listMax]
    | cons y ys =>
      have hmem := ih (by simp)
      rcases max_choice x (listMax (y :: ys)) with hm | hm
      · rw [show listMax (x :: y :: ys) = max x (listMax (y :: ys)) from rfl, hm]
        exact List.mem_cons_self _ _
      · rw [show listMax (x :: y :: ys) = max x (listMax (y :: ys)) from rfl, hm]
        exact List.mem_cons_of_mem _ hmem

theorem le_listMax (l : List ℚ) (x : ℚ) (hx : x ∈ l) : x ≤ listMax l := by
  induction l with
  | nil => simp at hx
  | cons a xs ih =>
    cases xs with
    | nil =>
      have : x = a := by simpa using hx
      simp [listMax, this]
    | cons y ys =>
      rw [show listMax (a :: y :: ys) = max a (listMax (y :: ys)) from rfl]
      rcases List.mem_cons.mp hx with h | h
      · exact h ▸ le_max_left _ _
      · exact le_trans (ih h) (le_max_right _ _)

theorem indexOfAux_spec (a : ℚ) (l : List ℚ) (h : a ∈ l) :
    ∃ n, indexOfAux a l = some n ∧ n < l.length ∧ l.getD n 0 = a ∧
      ∀ j, j < n → l.getD j 0 ≠ a := by
  induction l with
  | nil => simp at h
  | cons x xs ih =>
    by_cases hx : x = a
    · exact ⟨0, by simp [indexOfAux, hx], by simp, by simp [hx],
        fun j hj => absurd hj (Nat.not_lt_zero j)⟩
    · have hmem : a ∈ xs := by
        rcases List.mem_cons.mp h with h1 | h1
        · exact absurd h1.symm hx
        · exact h1
      obtain ⟨m, hm, hlt, hget, hbefore⟩ := ih hmem
      refine ⟨m + 1, ?_, ?_, ?_, ?_⟩
      · simp [indexOfAux, hx, hm]
      · simpa using Nat.succ_lt_succ hlt
      · simpa using hget
      · intro j hj
        cases j with
        | zero => simpa using hx
        | succ k =>
          simpa using hbefore k (Nat.lt_of_succ_lt_succ hj)

theorem idxOfMax_spec (l : List ℚ) (h : l ≠ []) :
    ∃ k : ℕ, idxOfMax l = (k : ℤ) ∧ k < l.length ∧
      (∀ j, j < l.length → l.getD j 0 ≤ l.getD k 0) ∧
      (∀ j, j < k → l.getD j 0 < l.getD k 0) := by
  obtain ⟨n, hn, hlt, hget, hbefore⟩ := indexOfAux_spec (listMax l) l (listMax_mem l h)
  have hmax : ∀ j, j < l.length → l.getD j 0 ≤ l.getD n 0 := by
    intro j hj
    have hmem : l.getD j 0 ∈ l := by
      rw [List.getD_eq_getElem l 0 hj]
      exact List.getElem_mem hj
    calc l.getD j 0 ≤ listMax l := le_listMax l _ hmem
    _ = l.getD n 0 := hget.symm
  refine ⟨n, by simp [idxOfMax, jsIndexOf, hn], hlt, hmax, ?_⟩
  intro j hj
  have hle : l.getD j 0 ≤ l.getD n 0 := hmax j (lt_trans hj hlt)
  have hne : l.getD j 0 ≠ l.getD n 0 := by
    rw [hget]
    exact hbefore j hj
  exact lt_of_le_of_ne hle hne

theorem sum_map_div (l : List ℚ) (t : ℚ) :
    (l.map (fun p => p / t)).sum = l.sum / t := by
  induction l with
  | nil => simp
  | cons x xs ih => simp [ih, add_div]

theorem ratSqrt_zero : Rat.sqrt 0 = 0 := by decide

/-- Rebuilding from an empty ledger yields all-zero bucket statistics. -/
theorem calculateOddsBucketStats_nil :
    calculateOddsBucketStats [] =
      { b12 := zeroOddsBucket, b35 := zeroOddsBucket
        b610 := zeroOddsBucket, b1130 := zeroOddsBucket } := by
  norm_num [calculateOddsBucketStats, initialBucketAccs, emptyBucketAcc, finalizeBucket,
    calculateVariance, calculateRecentPerformance, zeroOddsBucket]

/-! ### C1 -/

theorem adjustedPreNorm_pos (bucketStats : OddsBucketStats) (signalWeights : SignalWeights)
    (o : ℚ) (ho : 0 < o) : 0 < adjustedPreNorm bucketStats signalWeights o := by
  have h1 : (0:ℚ) < 1 / o := div_pos one_pos ho
  have h2 : (0:ℚ) < max 0.1 (1 +
      signalWeights.historicalBucketWeight *
        calculateBucketWinDelta (bucketStats.get (classifyOddsToBucket o)) +
      signalWeights.recentBucketWeight *
        extractRecentSessionDelta (bucketStats.get (classifyOddsToBucket o)) +
      signalWeights.consistencyWeight *
        deriveConsistencyModifier (bucketStats.get (classifyOddsToBucket o))) :=
    lt_of_lt_of_le (by norm_num) (le_max_left _ _)
  exact mul_pos h1 h2

/-- C1: for every array of six positive odds, every bucket-statistics table and
every signal-weight set, `calculateBucketAdjustedProbabilities` returns exactly
six values, each strictly positive, whose sum is exactly 1 (hence within 1e-9 of
1.0). -/
theorem c1_adjusted_probabilities_valid (odds : List ℚ) (bucketStats : OddsBucketStats)
    (signalWeights : SignalWeights) (h6 : odds.length = 6)
    (hpos : ∀ o ∈ odds, 0 < o) :
    (calculateBucketAdjustedProbabilities odds bucketStats signalWeights).length = 6 ∧
    (∀ p ∈ calculateBucketAdjustedProbabilities odds bucketStats signalWeights, 0 < p) ∧
    (calculateBucketAdjustedProbabilities odds bucketStats signalWeights).sum = 1 := by
  have hpre : ∀ p ∈ odds.map (adjustedPreNorm bucketStats signalWeights), 0 < p := by
    intro p hp
    obtain ⟨o, ho, rfl⟩ := List.mem_map.mp hp
    exact adjustedPreNorm_pos bucketStats signalWeights o (hpos o ho)
  have hodds : odds ≠ [] := by
    intro hcontra
    rw [hcontra] at h6
    simp at h6
  have hne : odds.map (adjustedPreNorm bucketStats signalWeights) ≠ [] := by
    simpa using hodds
  have htot : 0 < (odds.map (adjustedPreNorm bucketStats signalWeights)).sum :=
    List.sum_pos _ hpre hne
  refine ⟨?_, ?_, ?_⟩
  · simp [calculateBucketAdjustedProbabilities, h6]
  · intro p hp
    simp only [calculateBucketAdjustedProbabilities] at hp
    obtain ⟨q, hq, rfl⟩ := List.mem_map.mp hp
    exact div_pos (hpre q hq) htot
  · simp only [calculateBucketAdjustedProbabilities]
    rw [sum_map_div]
    exact div_self (ne_of_gt htot)

theorem c1_witness :
    (calculateBucketAdjustedProbabilities [1,1,1,1,1,1] (calculateOddsBucketStats [])
      defaultModelState.signalWeights).length = 6 ∧
    (∀ p ∈ calculateBucketAdjustedProbabilities [1,1,1,1,1,1] (calculateOddsBucketStats [])
      defaultModelState.signalWeights, 0 < p) ∧
    (calculateBucketAdjustedProbabilities [1,1,1,1,1,1] (calculateOddsBucketStats [])
      defaultModelState.signalWeights).sum = 1 :=
  c1_adjusted_probabilities_valid _ _ _ (by rfl) (by norm_num)

/-! ### C2 -/

/-- C2 (counterexample): with odds `[2,3,4,5,8,15]` against the empty-ledger
bucket statistics and the default signal weights, contender 0's adjusted
probability is `20/59`, not its implied probability `1/2`: the normalization
step rescales every contender because the implied probabilities sum to
`59/40 ≠ 1`. -/
theorem c2_counterexample :
    (calculateBucketAdjustedProbabilities [2,3,4,5,8,15] (calculateOddsBucketStats [])
      defaultModelState.signalWeights).getD 0 0 = 20/59 ∧
    ((20:ℚ)/59) ≠ 1/2 := by
  rw [calculateOddsBucketStats_nil]
  norm_num [calculateBucketAdjustedProbabilities, adjustedPreNorm, OddsBucketStats.get,
    classifyOddsToBucket, calculateBucketWinDelta, extractRecentSessionDelta,
    deriveConsistencyModifier, defaultModelState, zeroOddsBucket, max_def]

/-- C2 (amended): with odds `[2,3,4,5,8,15]` and an empty ledger, every
contender's adjusted probability equals its implied probability divided by the
total implied probability `59/40` (proportional to, but not equal to, the
implied probability), and the confidence level is `low`. -/
theorem c2_empty_ledger_proportional :
    calculateBucketAdjustedProbabilities [2,3,4,5,8,15] (calculateOddsBucketStats [])
      defaultModelState.signalWeights =
      ([2,3,4,5,8,15] : List ℚ).map (fun o => (1/o) / (59/40)) ∧
    calculateConfidence [2,3,4,5,8,15] (calculateOddsBucketStats []) defaultModelState =
      ConfidenceLevel.low := by
  rw [calculateOddsBucketStats_nil]
  constructor
  · norm_num [calculateBucketAdjustedProbabilities, adjustedPreNorm, OddsBucketStats.get,
      classifyOddsToBucket, calculateBucketWinDelta, extractRecentSessionDelta,
      deriveConsistencyModifier, defaultModelState, zeroOddsBucket, max_def]
  · norm_num [calculateConfidence, OddsBucketStats.get, classifyOddsToBucket,
      defaultModelState, zeroOddsBucket]

/-! ### C3 -/

/-- C3 (counterexample): a value edge of 0 is below the 0.02 threshold, yet
`calculateBetSize` returns 1000, not 0 — the function has no zero-stake path. -/
theorem c3_counterexample :
    (0:ℚ) ≤ 0.02 ∧
    calculateBetSize 0 ConfidenceLevel.low defaultModelState = 1000 ∧
    calculateBetSize 0 ConfidenceLevel.low defaultModelState ≠ 0 := by
  refine ⟨by norm_num, ?_, ?_⟩ <;>
    norm_num [calculateBetSize, round_eq]

/-- C3 (amended): `calculateBetSize` always returns a value in
[1000, 10000]; it never returns 0, for any edge, confidence level or model
state (skipping is handled upstream by the strategy selector). -/
theorem c3_bet_size_bounds (valueEdge : ℚ) (confidenceLevel : ConfidenceLevel)
    (modelState : ModelState) :
    1000 ≤ calculateBetSize valueEdge confidenceLevel modelState ∧
    calculateBetSize valueEdge confidenceLevel modelState ≤ 10000 := by
  unfold calculateBetSize
  exact ⟨le_max_left _ _, max_le (by norm_num) (min_le_left _ _)⟩

theorem c3_witness :
    1000 ≤ calculateBetSize 0 ConfidenceLevel.low defaultModelState ∧
    calculateBetSize 0 ConfidenceLevel.low defaultModelState ≤ 10000 :=
  c3_bet_size_bounds 0 ConfidenceLevel.low defaultModelState

/-! ### C4 -/

/-- C4 (counterexample): `1/2` is a positive odds value with `1/2 ≤ 2`, yet it
is classified `'11-30'`, not `'1-2'` — the first range requires `odds ≥ 1`. -/
theorem c4_counterexample :
    (0:ℚ) < 1/2 ∧ ((1:ℚ)/2) ≤ 2 ∧ classifyOddsToBucket (1/2) ≠ Bucket.b1to2 ∧
    classifyOddsToBucket (1/2) = Bucket.b11to30 := by
  have hc : classifyOddsToBucket (1/2) = Bucket.b11to30 := by
    norm_num [classifyOddsToBucket]
  refine ⟨by norm_num, by norm_num, ?_, hc⟩
  rw [hc]
  decide

/-- C4 (amended): for odds `≥ 1` the claimed bucket pattern holds
(`'1-2'` up to 2, `'3-5'` up to 5, `'6-10'` up to 10, `'11-30'` above), but
positive odds below 1 fall to `'11-30'`; the four boundary evaluations
`classify(2) = '1-2'`, `classify(2.01) = '3-5'`, `classify(10) = '6-10'`,
`classify(10.01) = '11-30'` hold exactly. -/
theorem c4_classify_ranges (o : ℚ) :
    (1 ≤ o → o ≤ 2 → classifyOddsToBucket o = Bucket.b1to2) ∧
    (2 < o → o ≤ 5 → classifyOddsToBucket o = Bucket.b3to5) ∧
    (5 < o → o ≤ 10 → classifyOddsToBucket o = Bucket.b6to10) ∧
    (10 < o → classifyOddsToBucket o = Bucket.b11to30) ∧
    (o < 1 → classifyOddsToBucket o = Bucket.b11to30) ∧
    classifyOddsToBucket 2 = Bucket.b1to2 ∧
    classifyOddsToBucket 2.01 = Bucket.b3to5 ∧
    classifyOddsToBucket 10 = Bucket.b6to10 ∧
    classifyOddsToBucket 10.01 = Bucket.b11to30 := by
  refine ⟨?_, ?_, ?_, ?_, ?_, by norm_num [classifyOddsToBucket],
    by norm_num [classifyOddsToBucket], by norm_num [classifyOddsToBucket],
    by norm_num [classifyOddsToBucket]⟩
  · intro h1 h2
    simp only [classifyOddsToBucket]
    rw [if_pos ⟨h1, h2⟩]
  · intro h1 h2
    simp only [classifyOddsToBucket]
    rw [if_neg (by rintro ⟨_, hc⟩; linarith), if_pos ⟨h1, h2⟩]
  · intro h1 h2
    simp only [classifyOddsToBucket]
    rw [if_neg (by rintro ⟨_, hc⟩; linarith), if_neg (by rintro ⟨_, hc⟩; linarith),
      if_pos ⟨h1, h2⟩]
  · intro h1
    simp only [classifyOddsToBucket]
    rw [if_neg (by rintro ⟨_, hc⟩; linarith), if_neg (by rintro ⟨_, hc⟩; linarith),
      if_neg (by rintro ⟨_, hc⟩; linarith)]
  · intro h1
    simp only [classifyOddsToBucket]
    rw [if_neg (by rintro ⟨hc, _⟩; linarith), if_neg (by rintro ⟨hc, _⟩; linarith),
      if_neg (by rintro ⟨hc, _⟩; linarith)]

theorem c4_witness : classifyOddsToBucket 3 = Bucket.b3to5 :=
  (c4_classify_ranges 3).2.1 (by norm_num) (by norm_num)

/-! ### C5 -/

/-- Bucket statistics of the single-race ledger `[raceLongshotWin]`. -/
theorem calculateOddsBucketStats_longshot :
    calculateOddsBucketStats [raceLongshotWin] =
      { b12 := { totalRaces := 5, wins := 0, top3Finishes := 2
                 totalImpliedProbability := 5/3, averageImpliedProbability := 1/3
                 actualWinRate := 0, roiIfFlatBet := -100
                 varianceScore := 0, recentWindowPerformance := 0 }
        b35 := zeroOddsBucket
        b610 := zeroOddsBucket
        b1130 := { totalRaces := 1, wins := 1, top3Finishes := 1
                   totalImpliedProbability := 1/31, averageImpliedProbability := 1/31
                   actualWinRate := 100, roiIfFlatBet := 2900
                   varianceScore := 0, recentWindowPerformance := 100 } } := by
  norm_num [calculateOddsBucketStats, raceLongshotWin, processRace, processHorse,
    List.enum, List.enumFrom, initialBucketAccs, emptyBucketAcc, BucketAccs.get,
    BucketAccs.set, classifyOddsToBucket, finalizeBucket, calculateVariance,
    calculateRecentPerformance, zeroOddsBucket, ratSqrt_zero]

/-- C5 (counterexample): after the single race `raceLongshotWin` (a winning
longshot at odds 30, flat-bet bucket ROI 2900%), the normalized
historical-bucket weight is `42/53 ≈ 0.79 > 0.7` — the weights are not clamped
to [0.05, 0.7]. -/
theorem c5_counterexample :
    (7:ℚ)/10 < (computeUpdatedSignalWeights [raceLongshotWin]
      defaultModelState 0).signalWeights.historicalBucketWeight := by
  norm_num [computeUpdatedSignalWeights, calculateOddsBucketStats_longshot,
    rawHistoricalWeight, totalPositiveROI, totalRawWeight, rawRecentWeight,
    avgRecentPerformance, rawConsistencyWeight, avgVariance, zeroOddsBucket, max_def]

theorem rawHistoricalWeight_ge (stats : OddsBucketStats) :
    1/4 ≤ rawHistoricalWeight stats := by
  unfold rawHistoricalWeight
  split
  · rename_i h
    have hnn : (0:ℚ) ≤ 0.1 * (totalPositiveROI stats / 100) := by positivity
    linarith
  · norm_num

theorem rawRecentWeight_ge (stats : OddsBucketStats) :
    1/4 ≤ rawRecentWeight stats := by
  unfold rawRecentWeight
  split
  · rename_i h
    have hnn : (0:ℚ) ≤ 0.1 * (avgRecentPerformance stats / 100) := by
      have := le_of_lt h
      positivity
    linarith
  · norm_num

theorem rawConsistencyWeight_ge (stats : OddsBucketStats) :
    3/20 ≤ rawConsistencyWeight stats := by
  unfold rawConsistencyWeight
  split <;> norm_num

theorem totalRawWeight_pos (stats : OddsBucketStats) : 0 < totalRawWeight stats := by
  have h1 := rawHistoricalWeight_ge stats
  have h2 := rawRecentWeight_ge stats
  have h3 := rawConsistencyWeight_ge stats
  unfold totalRawWeight
  linarith

/-- C5 (amended): for every non-empty race list and every model state, the four
signal weights returned by `computeUpdatedSignalWeights` sum to exactly 1 and
are each strictly positive (the claimed bounds [0.05, 0.7] do not hold in
general). -/
theorem c5_weights_sum_and_positive (races : List RaceRecord) (currentState : ModelState)
    (now : ℚ) (h : races ≠ []) :
    (computeUpdatedSignalWeights races currentState now).signalWeights.oddsWeight +
      (computeUpdatedSignalWeights races currentState now).signalWeights.historicalBucketWeight +
      (computeUpdatedSignalWeights races currentState now).signalWeights.recentBucketWeight +
      (computeUpdatedSignalWeights races currentState now).signalWeights.consistencyWeight
      = 1 ∧
    0 < (computeUpdatedSignalWeights races currentState now).signalWeights.oddsWeight ∧
    0 < (computeUpdatedSignalWeights races currentState now).signalWeights.historicalBucketWeight ∧
    0 < (computeUpdatedSignalWeights races currentState now).signalWeights.recentBucketWeight ∧
    0 < (computeUpdatedSignalWeights races currentState now).signalWeights.consistencyWeight := by
  have hlen : ¬(races.length = 0) := by simpa [List.length_eq_zero] using h
  simp only [computeUpdatedSignalWeights, if_neg hlen]
  have hT := totalRawWeight_pos (calculateOddsBucketStats races)
  have hh := rawHistoricalWeight_ge (calculateOddsBucketStats races)
  have hr := rawRecentWeight_ge (calculateOddsBucketStats races)
  have hc := rawConsistencyWeight_ge (calculateOddsBucketStats races)
  refine ⟨?_, ?_, ?_, ?_, ?_⟩
  · rw [div_add_div_same, div_add_div_same, div_add_div_same]
    exact div_self (ne_of_gt hT)
  · exact div_pos (by norm_num) hT
  · exact div_pos (by linarith) hT
  · exact div_pos (by linarith) hT
  · exact div_pos (by linarith) hT

theorem c5_witness :
    (computeUpdatedSignalWeights [raceLongshotWin] defaultModelState 0).signalWeights.oddsWeight +
      (computeUpdatedSignalWeights [raceLongshotWin] defaultModelState 0).signalWeights.historicalBucketWeight +
      (computeUpdatedSignalWeights [raceLongshotWin] defaultModelState 0).signalWeights.recentBucketWeight +
      (computeUpdatedSignalWeights [raceLongshotWin] defaultModelState 0).signalWeights.consistencyWeight
      = 1 ∧
    0 < (computeUpdatedSignalWeights [raceLongshotWin] defaultModelState 0).signalWeights.oddsWeight ∧
    0 < (computeUpdatedSignalWeights [raceLongshotWin] defaultModelState 0).signalWeights.historicalBucketWeight ∧
    0 < (computeUpdatedSignalWeights [raceLongshotWin] defaultModelState 0).signalWeights.recentBucketWeight ∧
    0 < (computeUpdatedSignalWeights [raceLongshotWin] defaultModelState 0).signalWeights.consistencyWeight :=
  c5_weights_sum_and_positive [raceLongshotWin] defaultModelState 0 (by simp)

/-! ### C6 -/

/-- All fields of `calculateBettingHistory` other than the `lastUpdated`
timestamp are independent of the clock. -/
theorem calculateBettingHistory_fields_time_invariant (races : List RaceRecord) (t1 t2 : ℚ) :
    (calculateBettingHistory races t1).cumulativeROI =
      (calculateBettingHistory races t2).cumulativeROI ∧
    (calculateBettingHistory races t1).totalRaces =
      (calculateBettingHistory races t2).totalRaces ∧
    (calculateBettingHistory races t1).totalWins =
      (calculateBettingHistory races t2).totalWins ∧
    (calculateBettingHistory races t1).totalProfit =
      (calculateBettingHistory races t2).totalProfit ∧
    (calculateBettingHistory races t1).totalInvested =
      (calculateBettingHistory races t2).totalInvested ∧
    (calculateBettingHistory races t1).winRate =
      (calculateBettingHistory races t2).winRate := by
  by_cases h : races.length = 0 <;> simp [calculateBettingHistory, h]

/-- C6 (counterexample): two rebuild passes over the same (empty) ledger at
clock readings 0 and 1 do not produce bit-identical `BettingHistory` values —
the `lastUpdated` field is stamped with `Date.now()`. -/
theorem c6_counterexample :
    (rebuildDerivedStats [] 0).1 ≠ (rebuildDerivedStats [] 1).1 := by
  intro hcontra
  have h := congrArg BettingHistory.lastUpdated hcontra
  norm_num [rebuildDerivedStats, calculateBettingHistory] at h

/-- C6 (amended): the rebuild is deterministic in the ledger — the
`OddsBucketStats` value is bit-identical across repeated rebuilds, the
`BettingHistory` agrees on every field except the `lastUpdated` wall-clock
stamp, and two rebuilds observing the same clock value agree bit-for-bit. -/
theorem c6_rebuild_deterministic (races : List RaceRecord) (t1 t2 : ℚ) :
    (rebuildDerivedStats races t1).2 = (rebuildDerivedStats races t2).2 ∧
    ((rebuildDerivedStats races t1).1.cumulativeROI =
      (rebuildDerivedStats races t2).1.cumulativeROI ∧
     (rebuildDerivedStats races t1).1.totalRaces =
      (rebuildDerivedStats races t2).1.totalRaces ∧
     (rebuildDerivedStats races t1).1.totalWins =
      (rebuildDerivedStats races t2).1.totalWins ∧
     (rebuildDerivedStats races t1).1.totalProfit =
      (rebuildDerivedStats races t2).1.totalProfit ∧
     (rebuildDerivedStats races t1).1.totalInvested =
      (rebuildDerivedStats races t2).1.totalInvested ∧
     (rebuildDerivedStats races t1).1.winRate =
      (rebuildDerivedStats races t2).1.winRate) ∧
    (t1 = t2 → rebuildDerivedStats races t1 = rebuildDerivedStats races t2) := by
  exact ⟨rfl, calculateBettingHistory_fields_time_invariant races t1 t2,
    fun h => by rw [h]⟩

theorem c6_witness :
    (rebuildDerivedStats [] 0).2 = (rebuildDerivedStats [] 0).2 ∧
    ((rebuildDerivedStats [] 0).1.cumulativeROI = (rebuildDerivedStats [] 0).1.cumulativeROI ∧
     (rebuildDerivedStats [] 0).1.totalRaces = (rebuildDerivedStats [] 0).1.totalRaces ∧
     (rebuildDerivedStats [] 0).1.totalWins = (rebuildDerivedStats [] 0).1.totalWins ∧
     (rebuildDerivedStats [] 0).1.totalProfit = (rebuildDerivedStats [] 0).1.totalProfit ∧
     (rebuildDerivedStats [] 0).1.totalInvested = (rebuildDerivedStats [] 0).1.totalInvested ∧
     (rebuildDerivedStats [] 0).1.winRate = (rebuildDerivedStats [] 0).1.winRate) ∧
    ((0:ℚ) = 0 → rebuildDerivedStats [] 0 = rebuildDerivedStats [] 0) :=
  c6_rebuild_deterministic [] 0 0

/-! ### C7 -/

/-- C7: `undoLastRace` on storage whose race list is empty (or absent) returns
failure and leaves the entire storage state — races, betting history, bucket
statistics and model state — unchanged. -/
theorem c7_undo_empty_noop (st : Store14.StorageState) (now : ℚ)
    (h : st.races = some [] ∨ st.races = none) :
    Store14.undoLastRace st now = (false, st) ∧
    (Store14.undoLastRace st now).2.races = st.races ∧
    (Store14.undoLastRace st now).2.bettingHistory = st.bettingHistory ∧
    (Store14.undoLastRace st now).2.oddsBucketStats = st.oddsBucketStats ∧
    (Store14.undoLastRace st now).2.modelState = st.modelState := by
  have hraces : Store14.getRaces st = [] := by
    rcases h with h | h <;> simp [Store14.getRaces, h]
  have key : Store14.undoLastRace st now = (false, st) := by
    simp [Store14.undoLastRace, hraces]
  exact ⟨key, by rw [key], by rw [key], by rw [key], by rw [key]⟩

theorem c7_witness :
    Store14.undoLastRace emptyStorage 0 = (false, emptyStorage) ∧
    (Store14.undoLastRace emptyStorage 0).2.races = emptyStorage.races ∧
    (Store14.undoLastRace emptyStorage 0).2.bettingHistory = emptyStorage.bettingHistory ∧
    (Store14.undoLastRace emptyStorage 0).2.oddsBucketStats = emptyStorage.oddsBucketStats ∧
    (Store14.undoLastRace emptyStorage 0).2.modelState = emptyStorage.modelState :=
  c7_undo_empty_noop emptyStorage 0 (Or.inr rfl)

/-! ### C8 -/

/-- `calculateAccuracy` is a percentage: it always lies in [0, 100]. -/
theorem calculateAccuracy_bounds (races : List RaceRecord) (w : ℕ) :
    0 ≤ calculateAccuracy races w ∧ calculateAccuracy races w ≤ 100 := by
  unfold calculateAccuracy
  split
  · norm_num
  · rename_i hne
    set recentRaces := if w = 0 then races else races.drop (races.length - w) with hrec
    have hlen : 0 < recentRaces.length := by
      rw [hrec]
      split
      · exact List.length_pos.mpr hne
      · rename_i hw
        rw [List.length_drop]
        have h1 : 0 < races.length := List.length_pos.mpr hne
        omega
    have hfil : (recentRaces.filter
        (fun r => decide (r.actualFirst = r.recommendedContender))).length ≤
        recentRaces.length := List.length_filter_le _ _
    have hlenQ : (0:ℚ) < (recentRaces.length : ℚ) := by exact_mod_cast hlen
    have hcQ : ((recentRaces.filter
        (fun r => decide (r.actualFirst = r.recommendedContender))).length : ℚ) ≤
        (recentRaces.length : ℚ) := by exact_mod_cast hfil
    have hc0 : (0:ℚ) ≤ ((recentRaces.filter
        (fun r => decide (r.actualFirst = r.recommendedContender))).length : ℚ) := by
      positivity
    constructor
    · positivity
    · rw [div_mul_eq_mul_div, div_le_iff₀ hlenQ]
      nlinarith

/-- C8 (counterexample): on an empty race list `computeUpdatedSignalWeights`
returns the input state unchanged, so a calibration scalar outside [0.5, 1.5]
(here 7) survives. -/
theorem c8_counterexample :
    (computeUpdatedSignalWeights [] badCalibrationState 0).calibrationScalar = 7 ∧
    ¬((computeUpdatedSignalWeights [] badCalibrationState 0).calibrationScalar ≤ 3/2) := by
  have key : computeUpdatedSignalWeights [] badCalibrationState 0 = badCalibrationState := rfl
  rw [key]
  constructor
  · norm_num [badCalibrationState]
  · norm_num [badCalibrationState]

/-- C8 (amended): for every NON-EMPTY race list and every model state, the
calibration scalar returned by `computeUpdatedSignalWeights` lies in
[0.5, 1.5]. -/
theorem c8_calibration_bounds (races : List RaceRecord) (currentState : ModelState)
    (now : ℚ) (h : races ≠ []) :
    1/2 ≤ (computeUpdatedSignalWeights races currentState now).calibrationScalar ∧
    (computeUpdatedSignalWeights races currentState now).calibrationScalar ≤ 3/2 := by
  have hlen : ¬(races.length = 0) := by simpa [List.length_eq_zero] using h
  simp only [computeUpdatedSignalWeights, if_neg hlen]
  obtain ⟨h0, h100⟩ := calculateAccuracy_bounds races currentState.recentAccuracyWindow
  split
  · rename_i hpos
    constructor <;> [linarith; linarith]
  · norm_num

theorem c8_witness :
    1/2 ≤ (computeUpdatedSignalWeights [raceLongshotWin] defaultModelState 0).calibrationScalar ∧
    (computeUpdatedSignalWeights [raceLongshotWin] defaultModelState 0).calibrationScalar ≤ 3/2 :=
  c8_calibration_bounds [raceLongshotWin] defaultModelState 0 (by simp)

/-! ### C9 -/

theorem balancedScores_length (probs edges : List ℚ) :
    (balancedScores probs edges).length = probs.length := by
  simp [balancedScores]

/-- Reduction of the Balanced branch of `getStrategyRecommendation`. -/
theorem getStrategyRecommendation_balanced (odds probs edges : List ℚ) :
    getStrategyRecommendation "Balanced" odds probs edges =
      if !(edges.any fun edge => decide (edge > (0.02:ℚ))) then
        { shouldSkip := true, recommendedIndex := -1
          reason := "No meaningful positive edge detected" }
      else
        { shouldSkip := false, recommendedIndex := idxOfMax (balancedScores probs edges)
          reason := "Best blend of probability and value" } := by
  simp only [getStrategyRecommendation]
  rw [if_neg (by decide), if_pos trivial]

/-- Reduction of the Safe branch of `getStrategyRecommendation`. -/
theorem getStrategyRecommendation_safe (odds probs edges : List ℚ) :
    getStrategyRecommendation "Safe" odds probs edges =
      { shouldSkip := false, recommendedIndex := idxOfMax probs
        reason := "Highest adjusted probability" } := by
  simp only [getStrategyRecommendation]
  rw [if_pos trivial]

/-- Reduction of the fallback branch of `getStrategyRecommendation` for an
unrecognized strategy-mode string. -/
theorem getStrategyRecommendation_default (mode : String) (h1 : mode ≠ "Safe")
    (h2 : mode ≠ "Balanced") (h3 : mode ≠ "Value") (h4 : mode ≠ "Aggressive")
    (odds probs edges : List ℚ) :
    getStrategyRecommendation mode odds probs edges =
      { shouldSkip := false, recommendedIndex := idxOfMax probs
        reason := "Highest adjusted probability (default)" } := by
  simp only [getStrategyRecommendation]
  rw [if_neg h1, if_neg h2, if_neg h3, if_neg h4]

/-- The Balanced branch splits into exactly two outcomes, decided by whether
some value edge exceeds the 0.02 threshold. -/
theorem balanced_cases (odds probs edges : List ℚ) :
    ((edges.any fun edge => decide (edge > (0.02:ℚ))) = true ∧
      getStrategyRecommendation "Balanced" odds probs edges =
        { shouldSkip := false, recommendedIndex := idxOfMax (balancedScores probs edges)
          reason := "Best blend of probability and value" }) ∨
    ((edges.any fun edge => decide (edge > (0.02:ℚ))) = false ∧
      getStrategyRecommendation "Balanced" odds probs edges =
        { shouldSkip := true, recommendedIndex := -1
          reason := "No meaningful positive edge detected" }) := by
  rw [getStrategyRecommendation_balanced]
  cases hany : edges.any fun edge => decide (edge > (0.02:ℚ))
  · right
    exact ⟨rfl, by simp⟩
  · left
    exact ⟨rfl, by simp⟩

/-- C9: in Balanced mode the recommendation skips iff no contender's value edge
exceeds 0.02; when it does not skip, the recommended index is the first
maximizer of `0.7·probability + 0.3·max(0, edge)`; and (concrete instance) the
recommended contender's own edge can itself be ≤ 0.02, because the skip test is
independent of which index wins the blend. -/
theorem c9_balanced_mode :
    (∀ odds probs edges : List ℚ,
      ((getStrategyRecommendation "Balanced" odds probs edges).shouldSkip = true ↔
        ∀ e ∈ edges, e ≤ 0.02) ∧
      ((getStrategyRecommendation "Balanced" odds probs edges).shouldSkip = false →
        (getStrategyRecommendation "Balanced" odds probs edges).recommendedIndex =
          idxOfMax (balancedScores probs edges)) ∧
      (probs ≠ [] → ∃ k : ℕ,
        idxOfMax (balancedScores probs edges) = (k : ℤ) ∧
        k < (balancedScores probs edges).length ∧
        ∀ j, j < (balancedScores probs edges).length →
          (balancedScores probs edges).getD j 0 ≤ (balancedScores probs edges).getD k 0)) ∧
    ((getStrategyRecommendation "Balanced" [2,10,10,10,10,10]
        [1/2,1/10,1/10,1/10,1/10,1/10] [0,3/100,0,0,0,0]).shouldSkip = false ∧
     (getStrategyRecommendation "Balanced" [2,10,10,10,10,10]
        [1/2,1/10,1/10,1/10,1/10,1/10] [0,3/100,0,0,0,0]).recommendedIndex = 0 ∧
     ((3:ℚ)/100 > 0.02) ∧
     ([0,3/100,0,0,0,0] : List ℚ).getD 0 0 ≤ 0.02) := by
  constructor
  · intro odds probs edges
    have hmax : probs ≠ [] → ∃ k : ℕ,
        idxOfMax (balancedScores probs edges) = (k : ℤ) ∧
        k < (balancedScores probs edges).length ∧
        ∀ j, j < (balancedScores probs edges).length →
          (balancedScores probs edges).getD j 0 ≤ (balancedScores probs edges).getD k 0 := by
      intro hpne
      have hlen : (balancedScores probs edges).length = probs.length :=
        balancedScores_length probs edges
      have hne : balancedScores probs edges ≠ [] := by
        intro hc
        apply hpne
        have h0 := congrArg List.length hc
        rw [hlen] at h0
        simpa [List.length_eq_zero] using h0
      obtain ⟨k, hk1, hk2, hk3, _⟩ := idxOfMax_spec _ hne
      exact ⟨k, hk1, hk2, hk3⟩
    rcases balanced_cases odds probs edges with ⟨hany, hrec⟩ | ⟨hany, hrec⟩
    · rw [hrec]
      simp only [List.any_eq_true, decide_eq_true_eq] at hany
      obtain ⟨e, he, hgt⟩ := hany
      refine ⟨?_, fun _ => rfl, hmax⟩
      constructor
      · intro hc
        exact absurd hc (by simp)
      · intro hall
        exact absurd (hall e he) (not_le.mpr hgt)
    · rw [hrec]
      have hall : ∀ e ∈ edges, e ≤ 0.02 := by
        intro e he
        by_contra hgt
        have hwit : (edges.any fun edge => decide (edge > (0.02:ℚ))) = true := by
          simp only [List.any_eq_true, decide_eq_true_eq]
          exact ⟨e, he, lt_of_not_le hgt⟩
        rw [hwit] at hany
        exact Bool.noConfusion hany
      refine ⟨⟨fun _ => hall, fun _ => rfl⟩, ?_, hmax⟩
      intro hc
      exact absurd hc (by simp)
  · refine ⟨?_, ?_, by norm_num, by norm_num⟩ <;>
    · norm_num [getStrategyRecommendation, balancedScores, idxOfMax, jsIndexOf, indexOfAux,
        listMax, List.enum, List.enumFrom, max_def]
      decide

/-! ### C10 -/

/-- C10: for every strategy-mode string other than the four known modes,
`getStrategyRecommendation` never skips and recommends exactly the Safe-mode
index: the first index attaining the maximum adjusted probability (all earlier
indices are strictly smaller, i.e. ties break to the lowest index). -/
theorem c10_unknown_mode_safe (mode : String)
    (h : mode ≠ "Safe" ∧ mode ≠ "Balanced" ∧ mode ≠ "Value" ∧ mode ≠ "Aggressive")
    (odds probs edges : List ℚ) :
    (getStrategyRecommendation mode odds probs edges).shouldSkip = false ∧
    (getStrategyRecommendation mode odds probs edges).shouldSkip =
      (getStrategyRecommendation "Safe" odds probs edges).shouldSkip ∧
    (getStrategyRecommendation mode odds probs edges).recommendedIndex =
      (getStrategyRecommendation "Safe" odds probs edges).recommendedIndex ∧
    (getStrategyRecommendation mode odds probs edges).recommendedIndex = idxOfMax probs ∧
    (probs ≠ [] → ∃ k : ℕ,
      (getStrategyRecommendation mode odds probs edges).recommendedIndex = (k : ℤ) ∧
      k < probs.length ∧
      (∀ j, j < probs.length → probs.getD j 0 ≤ probs.getD k 0) ∧
      (∀ j, j < k → probs.getD j 0 < probs.getD k 0)) := by
  obtain ⟨h1, h2, h3, h4⟩ := h
  rw [getStrategyRecommendation_default mode h1 h2 h3 h4 odds probs edges,
    getStrategyRecommendation_safe odds probs edges]
  refine ⟨rfl, rfl, rfl, rfl, ?_⟩
  intro hpne
  obtain ⟨k, hk1, hk2, hk3, hk4⟩ := idxOfMax_spec probs hpne
  exact ⟨k, hk1, hk2, hk3, hk4⟩

theorem c10_witness :
    (getStrategyRecommendation "Chaos" [2,3] [1/2,1/2] [0,0]).shouldSkip = false ∧
    (getStrategyRecommendation "Chaos" [2,3] [1/2,1/2] [0,0]).shouldSkip =
      (getStrategyRecommendation "Safe" [2,3] [1/2,1/2] [0,0]).shouldSkip ∧
    (getStrategyRecommendation "Chaos" [2,3] [1/2,1/2] [0,0]).recommendedIndex =
      (getStrategyRecommendation "Safe" [2,3] [1/2,1/2] [0,0]).recommendedIndex ∧
    (getStrategyRecommendation "Chaos" [2,3] [1/2,1/2] [0,0]).recommendedIndex =
      idxOfMax [1/2,1/2] ∧
    (([1/2,1/2] : List ℚ) ≠ [] → ∃ k : ℕ,
      (getStrategyRecommendation "Chaos" [2,3] [1/2,1/2] [0,0]).recommendedIndex = (k : ℤ) ∧
      k < ([1/2,1/2] : List ℚ).length ∧
      (∀ j, j < ([1/2,1/2] : List ℚ).length →
        ([1/2,1/2] : List ℚ).getD j 0 ≤ ([1/2,1/2] : List ℚ).getD k 0) ∧
      (∀ j, j < k → ([1/2,1/2] : List ℚ).getD j 0 < ([1/2,1/2] : List ℚ).getD k 0)) :=
  c10_unknown_mode_safe "Chaos" ⟨by decide, by decide, by decide, by decide⟩ [2,3] [1/2,1/2] [0,0]

theorem c9_witness :
    ((getStrategyRecommendation "Balanced" [3] [1] [1]).shouldSkip = true ↔
      ∀ e ∈ ([1] : List ℚ), e ≤ 0.02) ∧
    ((getStrategyRecommendation "Balanced" [3] [1] [1]).shouldSkip = false →
      (getStrategyRecommendation "Balanced" [3] [1] [1]).recommendedIndex =
        idxOfMax (balancedScores [1] [1])) ∧
    (([1] : List ℚ) ≠ [] → ∃ k : ℕ,
      idxOfMax (balancedScores [1] [1]) = (k : ℤ) ∧
      k < (balancedScores [1] [1]).length ∧
      ∀ j, j < (balancedScores [1] [1]).length →
        (balancedScores [1] [1]).getD j 0 ≤ (balancedScores [1] [1]).getD k 0) :=
  c9_balanced_mode.1 [3] [1] [1]
